import Mathlib

/-!
Verification of the pedal-input control loop of the Pedal-Pilot VS Code
extension.

Shallow embedding of the core of the repository:

* `calculateControlState` (src/copilotService.ts, lines 25-58): the
  deadzone/calibration engine mapping a pedal value to a control state;
* the timer state machine of `executeCopilotControl`, `acceptSuggestion`,
  `deleteSuggestion`, `acceptOneCharacter` (src/copilotService.ts);
* the threshold-crossing toggle detector (src/extension.ts, `activate`);
* `handlePedalData` (src/pedalService.ts): the axis normalizer with
  change-based suppression.

JavaScript numbers are modelled as exact rationals; `Math.round` is
`Int.floor (x + 1/2)` (JS rounds half toward positive infinity, also for
negative arguments).  Division by zero in JS yields `Infinity` when the
numerator is positive; in the two branches of `calculateControlState` where
a zero denominator can occur the numerator is strictly positive, so
`Math.min(100, Math.round(n / 0 * 100)) = 100`, and the embedding uses an
explicit zero-denominator case returning 100 there.
-/

namespace PedalPilot

/-- JavaScript `Math.round`: round half toward positive infinity. -/
def jsRound (x : ℚ) : ℤ := Int.floor (x + 1/2)

/-- Control state record from src/copilotService.ts (`CopilotControlState`).
Intensity is kept as an unbounded integer so that out-of-range calibration
behaviour stays observable. -/
structure CopilotControlState where
  isAccepting : Bool
  isDeleting : Bool
  intensity : ℤ
  deriving Repr, DecidableEq

/-- The default inactive state built at the top of `calculateControlState`. -/
def idleState : CopilotControlState := ⟨false, false, 0⟩

/-- Embedding of `calculateControlState` (src/copilotService.ts, lines
25-58).  `pedalCenter` and `pedalDeadzone` come from configuration; the
maximum 127 is hard-coded in the source.  The two zero-denominator cases
model the JS evaluation `Math.min(100, Math.round(n / 0 * 100)) = 100`
(the numerator is strictly positive in both branches there). -/
def calculateControlState (pedalCenter pedalDeadzone pedalValue : ℤ) :
    CopilotControlState :=
  if pedalValue ≥ pedalCenter - pedalDeadzone ∧
     pedalValue ≤ pedalCenter + pedalDeadzone then
    idleState
  else if pedalValue > pedalCenter + pedalDeadzone then
    if 127 - (pedalCenter + pedalDeadzone) = 0 then ⟨true, false, 100⟩
    else
      ⟨true, false,
        min 100 (jsRound (((pedalValue : ℚ) - ((pedalCenter : ℚ) + (pedalDeadzone : ℚ))) /
          ((127 : ℚ) - ((pedalCenter : ℚ) + (pedalDeadzone : ℚ))) * 100))⟩
  else if pedalValue < pedalCenter - pedalDeadzone then
    if pedalCenter - pedalDeadzone = 0 then ⟨false, true, 100⟩
    else
      ⟨false, true,
        min 100 (jsRound ((((pedalCenter : ℚ) - (pedalDeadzone : ℚ)) - (pedalValue : ℚ)) /
          ((pedalCenter : ℚ) - (pedalDeadzone : ℚ)) * 100))⟩
  else
    idleState

/-- Reference piecewise definition of the deadzone engine, following the
spec's words (section 4.2) with `max_value = 127`: inside the inclusive
band the state is idle; above the band the intensity is
`round(100 * (value - (center+deadzone)) / (max_value - (center+deadzone)))`
clamped to `[0, 100]`; below the band it is
`round(100 * ((center-deadzone) - value) / (center-deadzone))` clamped to
`[0, 100]`.  Used only to compare against `calculateControlState`. -/
def referenceControlState (center deadzone value : ℤ) : CopilotControlState :=
  if value ≥ center - deadzone ∧ value ≤ center + deadzone then
    ⟨false, false, 0⟩
  else if value > center + deadzone then
    ⟨true, false,
      max 0 (min 100 (jsRound (100 * ((value : ℚ) - ((center : ℚ) + (deadzone : ℚ))) /
        ((127 : ℚ) - ((center : ℚ) + (deadzone : ℚ))))))⟩
  else
    ⟨false, true,
      max 0 (min 100 (jsRound (100 * (((center : ℚ) - (deadzone : ℚ)) - (value : ℚ)) /
        ((center : ℚ) - (deadzone : ℚ)))))⟩

/-- Delay between repeated accept actions, from `acceptSuggestion`
(src/copilotService.ts, line 105):
`Math.max(5, Math.round((500 - (intensity * 4.8)) / 3))`. -/
def delayForIntensity (intensity : ℤ) : ℤ :=
  max 5 (jsRound ((500 - (intensity : ℚ) * 4.8) / 3))

/-- Threshold-crossing predicate of the toggle detector (src/extension.ts,
lines 120-121). -/
def crossedThreshold (previous current threshold : ℤ) : Bool :=
  (decide (previous < threshold) && decide (current ≥ threshold)) ||
  (decide (previous ≥ threshold) && decide (current < threshold))

/-- Per-sample firing of the toggle detector over a sequence of axis values,
starting from the given previous-value memory; the previous value is
updated to the current value after every sample (src/extension.ts,
lines 113-127). -/
def toggleFires (threshold : ℤ) : ℤ → List ℤ → List Bool
  | _, [] => []
  | previous, v :: rest =>
      crossedThreshold previous v threshold :: toggleFires threshold v rest

/-- Number of toggle events fired over a sequence of axis values. -/
def countToggleEvents (threshold previous : ℤ) (values : List ℤ) : ℕ :=
  (toggleFires threshold previous values).count true

/-- Pedal state record from src/pedalService.ts (`PedalState`). -/
structure PedalState where
  leftPedal : ℕ
  rightPedal : ℕ
  rudderPosition : ℕ
  deriving Repr, DecidableEq

/-- Initial previous-state memory of `PedalService` (src/pedalService.ts,
lines 16-20). -/
def initialPedalState : PedalState := ⟨0, 0, 0⟩

/-- Byte extraction of `handlePedalData` (src/pedalService.ts, lines 81-85):
`data[0] || 0`, `data[2] || 0`, `data[4] || 0`; a missing byte reads as 0. -/
def extractPedalState (data : List ℕ) : PedalState :=
  { rudderPosition := data.getD 0 0
    leftPedal := data.getD 2 0
    rightPedal := data.getD 4 0 }

/-- Embedding of `handlePedalData` (src/pedalService.ts, lines 71-99): given
the stored state and a raw sample, returns the new stored state and whether
a state-changed event fires. -/
def handlePedalData (current : PedalState) (data : List ℕ) :
    PedalState × Bool :=
  let newState := extractPedalState data
  if current.leftPedal ≠ newState.leftPedal ∨
     current.rightPedal ≠ newState.rightPedal ∨
     current.rudderPosition ≠ newState.rudderPosition then
    (newState, true)
  else
    (current, false)

/-- Observable state of `CopilotService` (src/copilotService.ts): the two
timer handles (`acceptTimer`, `deleteTimer`, modelled as active/inactive),
the `isCurrentlyAccepting` and `fallbackWarningShown` flags, and counters
for the externally visible effects (warnings shown, fine-grained accepts,
full-suggestion commits, suggestion dismissals). -/
structure ServiceState where
  acceptTimerActive : Bool
  deleteTimerActive : Bool
  isCurrentlyAccepting : Bool
  fallbackWarningShown : Bool
  warningCount : ℕ
  fineAcceptCount : ℕ
  commitCount : ℕ
  hideCount : ℕ
  deriving Repr, DecidableEq

/-- Field values of a freshly constructed `CopilotService`. -/
def initialServiceState : ServiceState :=
  ⟨false, false, false, false, 0, 0, 0, 0⟩

/-- Embedding of `stopAcceptTimer` (src/copilotService.ts, lines 181-187). -/
def stopAcceptTimer (s : ServiceState) : ServiceState :=
  { s with acceptTimerActive := false, isCurrentlyAccepting := false }

/-- Embedding of `stopDeleteTimer` (src/copilotService.ts, lines 211-216). -/
def stopDeleteTimer (s : ServiceState) : ServiceState :=
  { s with deleteTimerActive := false }

/-- Embedding of `acceptSuggestion` (src/copilotService.ts, lines 98-126):
stops any existing accept timer, then, when an active editor is present,
starts the repeating accept timer. -/
def acceptSuggestion (hasActiveEditor : Bool) (s : ServiceState) :
    ServiceState :=
  if hasActiveEditor then
    { stopAcceptTimer s with isCurrentlyAccepting := true, acceptTimerActive := true }
  else
    stopAcceptTimer s

/-- Embedding of `deleteSuggestion` (src/copilotService.ts, lines 196-206):
stops any existing delete timer, then dismisses the suggestion once; no
timer is started. -/
def deleteSuggestion (s : ServiceState) : ServiceState :=
  { stopDeleteTimer s with hideCount := s.hideCount + 1 }

/-- Embedding of `executeCopilotControl` (src/copilotService.ts, lines
64-85). -/
def executeCopilotControl (hasActiveEditor : Bool)
    (state : CopilotControlState) (s : ServiceState) : ServiceState :=
  if state.intensity = 0 then stopAcceptTimer s
  else if state.isAccepting then acceptSuggestion hasActiveEditor s
  else if state.isDeleting then deleteSuggestion (stopAcceptTimer s)
  else s

/-- Embedding of `acceptOneCharacter` (src/copilotService.ts, lines
134-176).  `fineGrainedAvailable` abstracts whether any of the probed
character/word-level commands exists; when none does, the warning is shown
once (guarded by `fallbackWarningShown`), the timer is stopped and the
whole suggestion is committed. -/
def acceptOneCharacter (fineGrainedAvailable : Bool) (s : ServiceState) :
    ServiceState :=
  if fineGrainedAvailable then
    { s with fineAcceptCount := s.fineAcceptCount + 1 }
  else
    let s1 :=
      if s.fallbackWarningShown then s
      else { s with fallbackWarningShown := true, warningCount := s.warningCount + 1 }
    { stopAcceptTimer s1 with commitCount := s1.commitCount + 1 }

/-- Events driving the service: a processed pedal sample (with the derived
control state and whether an active editor exists), or a tick of the accept
timer (with whether a fine-grained accept command is available). -/
inductive ServiceEvent where
  | sample (hasActiveEditor : Bool) (state : CopilotControlState)
  | tick (fineGrainedAvailable : Bool)

/-- One step of the service.  A tick only has an effect while the accept
timer is active (`clearInterval` stops further callbacks). -/
def serviceStep : ServiceEvent → ServiceState → ServiceState
  | .sample hasEditor state, s => executeCopilotControl hasEditor state s
  | .tick fine, s => if s.acceptTimerActive then acceptOneCharacter fine s else s

/-- Run of the service over a list of events. -/
def runService : List ServiceEvent → ServiceState → ServiceState
  | [], s => s
  | e :: es, s => runService es (serviceStep e s)

/-! Helper lemmas about `jsRound` and the branches of
`calculateControlState`. -/

theorem jsRound_nonneg {x : ℚ} (hx : 0 ≤ x) : 0 ≤ jsRound x :=
  Int.le_floor.mpr (by push_cast; linarith)

theorem jsRound_mono {x y : ℚ} (h : x ≤ y) : jsRound x ≤ jsRound y :=
  Int.floor_mono (by linarith)

theorem le_jsRound {z : ℤ} {x : ℚ} (h : (z : ℚ) ≤ x + 1/2) : z ≤ jsRound x :=
  Int.le_floor.mpr h

theorem jsRound_lt {x y : ℚ} (h : x + 1 ≤ y) : jsRound x < jsRound y := by
  unfold jsRound
  have h1 : ⌊x + 1/2 + 1⌋ = ⌊x + 1/2⌋ + 1 := Int.floor_add_one _
  have h2 : ⌊x + 1/2 + 1⌋ ≤ ⌊y + 1/2⌋ := Int.floor_mono (by linarith)
  omega

theorem PedalState.ext_fields {a b : PedalState}
    (h1 : a.leftPedal = b.leftPedal) (h2 : a.rightPedal = b.rightPedal)
    (h3 : a.rudderPosition = b.rudderPosition) : a = b := by
  cases a; cases b; simp_all

theorem calc_idle (c d v : ℤ) (h : c - d ≤ v ∧ v ≤ c + d) :
    calculateControlState c d v = idleState := by
  simp only [calculateControlState]
  rw [if_pos h]

theorem calc_accept (c d v : ℤ) (h1 : c + d < v) (h2 : 127 - (c + d) ≠ 0) :
    calculateControlState c d v =
      ⟨true, false,
        min 100 (jsRound (((v : ℚ) - ((c : ℚ) + (d : ℚ))) /
          ((127 : ℚ) - ((c : ℚ) + (d : ℚ))) * 100))⟩ := by
  simp only [calculateControlState]
  rw [if_neg (by omega), if_pos h1, if_neg h2]

theorem calc_accept_sat (c d v : ℤ) (h1 : c + d < v) (h2 : 127 - (c + d) = 0) :
    calculateControlState c d v = ⟨true, false, 100⟩ := by
  simp only [calculateControlState]
  rw [if_neg (by omega), if_pos h1, if_pos h2]

theorem calc_delete (c d v : ℤ) (h0 : 0 ≤ d) (h1 : v < c - d)
    (h2 : c - d ≠ 0) :
    calculateControlState c d v =
      ⟨false, true,
        min 100 (jsRound ((((c : ℚ) - (d : ℚ)) - (v : ℚ)) /
          ((c : ℚ) - (d : ℚ)) * 100))⟩ := by
  simp only [calculateControlState]
  rw [if_neg (by omega), if_neg (by omega), if_pos h1, if_neg h2]

theorem calc_delete_sat (c d v : ℤ) (h0 : 0 ≤ d) (h1 : v < c - d)
    (h2 : c - d = 0) :
    calculateControlState c d v = ⟨false, true, 100⟩ := by
  simp only [calculateControlState]
  rw [if_neg (by omega), if_neg (by omega), if_pos h1, if_pos h2]

/-! Claim theorems. -/

/-- C2: the threshold-crossing detector fires exactly when
`(previous < threshold && current >= threshold) ||
(previous >= threshold && current < threshold)`, a directionless edge
trigger fired once per crossing; for the value sequence
`[50, 95, 95, 40, 95]` against threshold 90 (previous-value memory starting
at 0, as in `activate`) exactly 3 toggle events fire, at steps 2, 4 and 5,
not 4. -/
theorem C2_toggle_crossing :
    (∀ p c t : ℤ, crossedThreshold p c t = true ↔
      ((p < t ∧ c ≥ t) ∨ (p ≥ t ∧ c < t))) ∧
    toggleFires 90 0 [50, 95, 95, 40, 95] = [false, true, false, true, true] ∧
    countToggleEvents 90 0 [50, 95, 95, 40, 95] = 3 := by
  refine ⟨fun p c t => ?_, by decide, by decide⟩
  simp [crossedThreshold]

/-- C9: processing a raw sample whose extracted bytes produce a `PedalState`
identical to the stored state emits no event and keeps the stored state;
processing one where any extracted field differs stores the new state and
emits exactly one event. -/
theorem C9_change_suppression (current : PedalState) (data : List ℕ) :
    (extractPedalState data = current →
      handlePedalData current data = (current, false)) ∧
    (extractPedalState data ≠ current →
      handlePedalData current data = (extractPedalState data, true)) := by
  constructor
  · intro h
    simp [handlePedalData, h]
  · intro h
    simp only [handlePedalData]
    rw [if_pos]
    by_contra hc
    push_neg at hc
    obtain ⟨h1, h2, h3⟩ := hc
    exact h (PedalState.ext_fields h1.symm h2.symm h3.symm)

/-- C9 witness: a sample extracting to the stored state is suppressed, and a
sample differing in one byte fires exactly one event with the new state. -/
theorem C9_change_suppression_witness :
    handlePedalData ⟨5, 6, 7⟩ [7, 0, 5, 0, 6] = (⟨5, 6, 7⟩, false) ∧
    handlePedalData ⟨5, 6, 7⟩ [7, 0, 9, 0, 6] = (⟨9, 6, 7⟩, true) :=
  ⟨(C9_change_suppression ⟨5, 6, 7⟩ [7, 0, 5, 0, 6]).1 (by decide),
   (C9_change_suppression ⟨5, 6, 7⟩ [7, 0, 9, 0, 6]).2 (by decide)⟩

/-- C10: the previous-state memory of `PedalService` starts as
`{leftPedal: 0, rightPedal: 0, rudderPosition: 0}`, so the very first HID
report whose bytes at offsets 0, 2 and 4 are all zero (or missing, hence
zero-filled) emits no state-changed event. -/
theorem C10_initial_zero_report (data : List ℕ)
    (h0 : data.getD 0 0 = 0) (h2 : data.getD 2 0 = 0)
    (h4 : data.getD 4 0 = 0) :
    initialPedalState = ⟨0, 0, 0⟩ ∧
    handlePedalData initialPedalState data = (initialPedalState, false) := by
  refine ⟨rfl, ?_⟩
  have hext : extractPedalState data = initialPedalState := by
    unfold extractPedalState initialPedalState
    rw [h0, h2, h4]
  simp [handlePedalData, hext]

/-! Invariants of the service state machine. -/

theorem deleteTimer_step (e : ServiceEvent) (s : ServiceState)
    (h : s.deleteTimerActive = false) :
    (serviceStep e s).deleteTimerActive = false := by
  cases e with
  | sample hasEditor state =>
      simp only [serviceStep, executeCopilotControl, acceptSuggestion,
        deleteSuggestion, stopAcceptTimer, stopDeleteTimer]
      split_ifs <;> simp [h]
  | tick fine =>
      simp only [serviceStep, acceptOneCharacter, stopAcceptTimer]
      split_ifs <;> simp [h]

theorem deleteTimer_run (es : List ServiceEvent) (s : ServiceState)
    (h : s.deleteTimerActive = false) :
    (runService es s).deleteTimerActive = false := by
  induction es generalizing s with
  | nil => exact h
  | cons e es ih => exact ih _ (deleteTimer_step e s h)

theorem warningCount_inv_step (e : ServiceEvent) (s : ServiceState)
    (h : s.warningCount = if s.fallbackWarningShown then 1 else 0) :
    (serviceStep e s).warningCount =
      if (serviceStep e s).fallbackWarningShown then 1 else 0 := by
  cases e with
  | sample hasEditor state =>
      simp only [serviceStep, executeCopilotControl, acceptSuggestion,
        deleteSuggestion, stopAcceptTimer, stopDeleteTimer]
      split_ifs <;> simp_all
  | tick fine =>
      simp only [serviceStep, acceptOneCharacter, stopAcceptTimer]
      split_ifs <;> simp_all

theorem warningCount_inv_run (es : List ServiceEvent) (s : ServiceState)
    (h : s.warningCount = if s.fallbackWarningShown then 1 else 0) :
    (runService es s).warningCount =
      if (runService es s).fallbackWarningShown then 1 else 0 := by
  induction es generalizing s with
  | nil => exact h
  | cons e es ih => exact ih _ (warningCount_inv_step e s h)

/-- C3 counterexample: after an Accepting sample with intensity 80 (which
leaves the accept timer active) followed by a Deleting sample with
intensity 60, the delete timer is NOT active — `deleteSuggestion` performs a
one-shot dismissal and never starts a timer — so "exactly one timer is
active: the delete timer" is false on the code. -/
theorem C3_counterexample :
    (runService [ServiceEvent.sample true ⟨true, false, 80⟩]
        initialServiceState).acceptTimerActive = true ∧
    (runService [ServiceEvent.sample true ⟨true, false, 80⟩,
        ServiceEvent.sample true ⟨false, true, 60⟩]
        initialServiceState).deleteTimerActive = false := by
  decide

/-- C3 amended: transitioning directly from Accepting (intensity 80) to
Deleting (intensity 60) cancels the accept timer and leaves NO timer active
(the delete path performs a one-shot dismissal without starting a timer);
the delete timer is never active in any reachable state, so at no point are
both timers active simultaneously. -/
theorem C3_timer_mutual_exclusion :
    ((runService [ServiceEvent.sample true ⟨true, false, 80⟩,
        ServiceEvent.sample true ⟨false, true, 60⟩]
        initialServiceState).acceptTimerActive = false ∧
     (runService [ServiceEvent.sample true ⟨true, false, 80⟩,
        ServiceEvent.sample true ⟨false, true, 60⟩]
        initialServiceState).deleteTimerActive = false) ∧
    (∀ es : List ServiceEvent,
      (runService es initialServiceState).deleteTimerActive = false) ∧
    (∀ es : List ServiceEvent,
      ((runService es initialServiceState).acceptTimerActive &&
       (runService es initialServiceState).deleteTimerActive) = false) := by
  refine ⟨by decide, fun es => deleteTimer_run es _ rfl, fun es => ?_⟩
  have h := deleteTimer_run es initialServiceState rfl
  simp [h]

/-- C4 counterexample: after a tick that finds no fine-grained accept
command (performing the fallback commit and stopping the timer), a later
Accepting sample restarts the timer and its next tick attempts — and
performs — a fine-grained accept again, so "does not attempt fine-grained
accepts again for any subsequent tick in that session" is false on the code
(the availability probe runs on every tick; only the warning is sticky). -/
theorem C4_counterexample :
    ((runService [ServiceEvent.sample true ⟨true, false, 50⟩,
        ServiceEvent.tick false] initialServiceState).commitCount = 1 ∧
     (runService [ServiceEvent.sample true ⟨true, false, 50⟩,
        ServiceEvent.tick false] initialServiceState).fineAcceptCount = 0 ∧
     (runService [ServiceEvent.sample true ⟨true, false, 50⟩,
        ServiceEvent.tick false] initialServiceState).acceptTimerActive
       = false) ∧
    (runService [ServiceEvent.sample true ⟨true, false, 50⟩,
        ServiceEvent.tick false,
        ServiceEvent.sample true ⟨true, false, 50⟩,
        ServiceEvent.tick true] initialServiceState).fineAcceptCount = 1 := by
  decide

/-- C4 amended: a tick of an active accept timer that finds no fine-grained
accept command performs exactly one coarser one-shot commit (and no
fine-grained accept), stops the timer, and shows the warning only if it was
never shown before; a tick of a stopped timer does nothing (so no further
fine-grained attempts happen until a new Accepting sample restarts the
timer); over any event sequence of a session the warning is shown at most
once.  (Fine-grained accepts may be attempted again on ticks of later
restarted timers: the fallback is sticky only for the warning.) -/
theorem C4_sticky_fallback :
    (∀ s : ServiceState, s.acceptTimerActive = true →
      (serviceStep (ServiceEvent.tick false) s).commitCount =
        s.commitCount + 1 ∧
      (serviceStep (ServiceEvent.tick false) s).fineAcceptCount =
        s.fineAcceptCount ∧
      (serviceStep (ServiceEvent.tick false) s).acceptTimerActive = false ∧
      (serviceStep (ServiceEvent.tick false) s).fallbackWarningShown = true ∧
      (serviceStep (ServiceEvent.tick false) s).warningCount =
        (if s.fallbackWarningShown then s.warningCount
         else s.warningCount + 1)) ∧
    (∀ fine : Bool, ∀ s : ServiceState, s.acceptTimerActive = false →
      serviceStep (ServiceEvent.tick fine) s = s) ∧
    (∀ es : List ServiceEvent,
      (runService es initialServiceState).warningCount ≤ 1) := by
  refine ⟨fun s hs => ?_, fun fine s hs => ?_, fun es => ?_⟩
  · simp only [serviceStep, acceptOneCharacter, stopAcceptTimer, hs]
    split_ifs <;> simp_all
  · simp [serviceStep, hs]
  · have h := warningCount_inv_run es initialServiceState rfl
    rw [h]
    split_ifs <;> norm_num

/-- C4 witness: the amended theorem applied at concrete states. -/
theorem C4_sticky_fallback_witness :
    (serviceStep (ServiceEvent.tick false)
      ⟨true, false, false, false, 0, 0, 0, 0⟩).acceptTimerActive = false ∧
    serviceStep (ServiceEvent.tick true) initialServiceState =
      initialServiceState ∧
    (runService [] initialServiceState).warningCount ≤ 1 :=
  ⟨(C4_sticky_fallback.1 ⟨true, false, false, false, 0, 0, 0, 0⟩
      rfl).2.2.1,
   C4_sticky_fallback.2.1 true initialServiceState rfl,
   C4_sticky_fallback.2.2 []⟩

/-- C10 witness: an all-zero-at-offsets first report (with junk in the other
bytes) and an empty report both emit no event. -/
theorem C10_initial_zero_report_witness :
    handlePedalData initialPedalState [0, 7, 0, 9, 0, 11] =
      (initialPedalState, false) ∧
    handlePedalData initialPedalState [] = (initialPedalState, false) :=
  ⟨(C10_initial_zero_report [0, 7, 0, 9, 0, 11] (by decide) (by decide)
      (by decide)).2,
   (C10_initial_zero_report [] (by decide) (by decide) (by decide)).2⟩

/-- C6: when `center + deadzone = 127` the Accepting denominator is 0, and
when `center - deadzone = 0` the Deleting denominator is 0; in both cases a
value beyond the band does not fail by dividing by zero and the intensity
saturates at 100 (in JS the positive numerator divided by 0 gives
`Infinity`, and `Math.min(100, Infinity) = 100`). -/
theorem C6_division_by_zero_guard (c d v : ℤ) :
    (c + d = 127 → c + d < v →
      calculateControlState c d v = ⟨true, false, 100⟩) ∧
    (0 ≤ d → c - d = 0 → v < c - d →
      calculateControlState c d v = ⟨false, true, 100⟩) :=
  ⟨fun h1 h2 => calc_accept_sat c d v h2 (by omega),
   fun h0 h1 h2 => calc_delete_sat c d v h0 h2 h1⟩

/-- C6 witness: both zero-denominator cases at concrete inputs. -/
theorem C6_division_by_zero_guard_witness :
    calculateControlState 126 1 200 = ⟨true, false, 100⟩ ∧
    calculateControlState 1 1 (-1) = ⟨false, true, 100⟩ :=
  ⟨(C6_division_by_zero_guard 126 1 200).1 (by norm_num) (by norm_num),
   (C6_division_by_zero_guard 1 1 (-1)).2 (by norm_num) (by norm_num)
     (by norm_num)⟩

/-- C5 counterexample: with calibration `center = 127`, `deadzone = 1`
(violating `center + deadzone ≤ max_axis_value`) and pedal value 130, the
code returns intensity −200, far outside `[0, 100]` — out-of-range
calibration is NOT clamped. -/
theorem C5_counterexample :
    (calculateControlState 127 1 130).intensity = -200 ∧
    ¬(0 ≤ (calculateControlState 127 1 130).intensity ∧
      (calculateControlState 127 1 130).intensity ≤ 100) := by
  constructor
  · norm_num [calculateControlState, jsRound, idleState]
  · norm_num [calculateControlState, jsRound, idleState]

/-- C5 amended: for every pedal value and calibration, at most one of
`isAccepting`/`isDeleting` is true and intensity is 0 when both are false;
the intensity lies in `[0, 100]` whenever the calibration satisfies
`0 ≤ deadzone ≤ center` and `center + deadzone ≤ 127`.  For calibration
outside that range the intensity can leave `[0, 100]` (see the
counterexample), so graceful clamping holds only on the invariant range. -/
theorem C5_well_formed_state (c d v : ℤ) :
    (¬((calculateControlState c d v).isAccepting = true ∧
       (calculateControlState c d v).isDeleting = true)) ∧
    ((calculateControlState c d v).isAccepting = false →
     (calculateControlState c d v).isDeleting = false →
     (calculateControlState c d v).intensity = 0) ∧
    (0 ≤ d → d ≤ c → c + d ≤ 127 →
      0 ≤ (calculateControlState c d v).intensity ∧
      (calculateControlState c d v).intensity ≤ 100) := by
  refine ⟨?_, ?_, fun h0 h1 h2 => ?_⟩
  · simp only [calculateControlState]
    split_ifs <;> simp [idleState]
  · simp only [calculateControlState]
    split_ifs <;> simp [idleState]
  · by_cases hband : c - d ≤ v ∧ v ≤ c + d
    · rw [calc_idle c d v hband]
      simp [idleState]
    · by_cases hacc : c + d < v
      · by_cases hz : 127 - (c + d) = 0
        · rw [calc_accept_sat c d v hacc hz]
          norm_num
        · rw [calc_accept c d v hacc hz]
          have hnum : (0 : ℚ) < (v : ℚ) - ((c : ℚ) + (d : ℚ)) := by
            have : (c : ℚ) + (d : ℚ) < (v : ℚ) := by exact_mod_cast hacc
            linarith
          have hden : (0 : ℚ) < (127 : ℚ) - ((c : ℚ) + (d : ℚ)) := by
            have : ((c : ℚ) + (d : ℚ)) < 127 := by exact_mod_cast (by omega : c + d < 127)
            linarith
          constructor
          · exact le_min (by norm_num)
              (jsRound_nonneg (by positivity))
          · exact min_le_left _ _
      · have hdel : v < c - d := by omega
        by_cases hz : c - d = 0
        · rw [calc_delete_sat c d v h0 hdel hz]
          norm_num
        · rw [calc_delete c d v h0 hdel hz]
          have hnum : (0 : ℚ) < ((c : ℚ) - (d : ℚ)) - (v : ℚ) := by
            have : (v : ℚ) < (c : ℚ) - (d : ℚ) := by exact_mod_cast hdel
            linarith
          have hden : (0 : ℚ) < (c : ℚ) - (d : ℚ) := by
            have : (0 : ℚ) < ((c : ℚ) - (d : ℚ)) := by
              exact_mod_cast (by omega : (0 : ℤ) < c - d)
            linarith
          constructor
          · exact le_min (by norm_num)
              (jsRound_nonneg (by positivity))
          · exact min_le_left _ _

/-- C5 witness: the amended theorem applied at the default calibration. -/
theorem C5_well_formed_state_witness :
    0 ≤ (calculateControlState 63 1 95).intensity ∧
    (calculateControlState 63 1 95).intensity ≤ 100 :=
  (C5_well_formed_state 63 1 95).2.2 (by norm_num) (by norm_num)
    (by norm_num)

/-- C1: under the calibration invariant (`0 ≤ deadzone < center`,
`center + deadzone ≤ 127`) and for every pedal value in the documented
range `[0, 127]`, `calculateControlState` equals the piecewise reference
definition from the spec with `max_value = 127` and intensities clamped to
`[0, 100]`. -/
theorem C1_matches_reference (c d v : ℤ) (hd : 0 ≤ d) (hdc : d < c)
    (hmax : c + d ≤ 127) (hv0 : 0 ≤ v) (hv : v ≤ 127) :
    calculateControlState c d v = referenceControlState c d v := by
  by_cases hband : v ≥ c - d ∧ v ≤ c + d
  · rw [calc_idle c d v hband]
    simp only [referenceControlState]
    rw [if_pos hband]
    rfl
  · by_cases hacc : c + d < v
    · have hz : 127 - (c + d) ≠ 0 := by omega
      rw [calc_accept c d v hacc hz]
      simp only [referenceControlState]
      rw [if_neg hband, if_pos hacc]
      have harg :
          ((v : ℚ) - ((c : ℚ) + (d : ℚ))) /
              ((127 : ℚ) - ((c : ℚ) + (d : ℚ))) * 100 =
            100 * ((v : ℚ) - ((c : ℚ) + (d : ℚ))) /
              ((127 : ℚ) - ((c : ℚ) + (d : ℚ))) := by
        ring
      rw [harg]
      have hnum : (0 : ℚ) < (v : ℚ) - ((c : ℚ) + (d : ℚ)) := by
        have : (c : ℚ) + (d : ℚ) < (v : ℚ) := by exact_mod_cast hacc
        linarith
      have hden : (0 : ℚ) < (127 : ℚ) - ((c : ℚ) + (d : ℚ)) := by
        have : ((c : ℚ) + (d : ℚ)) < 127 := by
          exact_mod_cast (by omega : c + d < 127)
        linarith
      rw [max_eq_right (le_min (by norm_num)
        (jsRound_nonneg (by positivity)))]
    · have hdel : v < c - d := by omega
      have hz : c - d ≠ 0 := by omega
      rw [calc_delete c d v hd hdel hz]
      simp only [referenceControlState]
      rw [if_neg hband, if_neg (by omega : ¬v > c + d)]
      have harg :
          (((c : ℚ) - (d : ℚ)) - (v : ℚ)) / ((c : ℚ) - (d : ℚ)) * 100 =
            100 * (((c : ℚ) - (d : ℚ)) - (v : ℚ)) / ((c : ℚ) - (d : ℚ)) := by
        ring
      rw [harg]
      have hnum : (0 : ℚ) < ((c : ℚ) - (d : ℚ)) - (v : ℚ) := by
        have : (v : ℚ) < (c : ℚ) - (d : ℚ) := by exact_mod_cast hdel
        linarith
      have hden : (0 : ℚ) < (c : ℚ) - (d : ℚ) := by
        exact_mod_cast (by omega : (0 : ℤ) < c - d)
      rw [max_eq_right (le_min (by norm_num)
        (jsRound_nonneg (by positivity)))]

/-- C1 witness: code and reference agree at the default calibration and the
spec's example value 95. -/
theorem C1_matches_reference_witness :
    calculateControlState 63 1 95 = referenceControlState 63 1 95 :=
  C1_matches_reference 63 1 95 (by norm_num) (by norm_num) (by norm_num)
    (by norm_num) (by norm_num)

/-- C7: under the calibration invariant, for values strictly above the band
the state is Accepting and intensity is non-decreasing in the value; for
values strictly below the band the state is Deleting and intensity is
non-decreasing as the value decreases. -/
theorem C7_intensity_monotone (c d v1 v2 : ℤ) (hd : 0 ≤ d) (hdc : d < c)
    (hmax : c + d ≤ 127) :
    (c + d < v1 → v1 ≤ v2 →
      (calculateControlState c d v1).isAccepting = true ∧
      (calculateControlState c d v2).isAccepting = true ∧
      (calculateControlState c d v1).intensity ≤
        (calculateControlState c d v2).intensity) ∧
    (v1 < c - d → v2 ≤ v1 →
      (calculateControlState c d v1).isDeleting = true ∧
      (calculateControlState c d v2).isDeleting = true ∧
      (calculateControlState c d v1).intensity ≤
        (calculateControlState c d v2).intensity) := by
  constructor
  · intro h1 h12
    have h2 : c + d < v2 := lt_of_lt_of_le h1 h12
    by_cases hz : 127 - (c + d) = 0
    · rw [calc_accept_sat c d v1 h1 hz, calc_accept_sat c d v2 h2 hz]
      exact ⟨rfl, rfl, le_refl _⟩
    · rw [calc_accept c d v1 h1 hz, calc_accept c d v2 h2 hz]
      refine ⟨rfl, rfl, min_le_min le_rfl (jsRound_mono ?_)⟩
      have hden : (0 : ℚ) < (127 : ℚ) - ((c : ℚ) + (d : ℚ)) := by
        have : ((c : ℚ) + (d : ℚ)) < 127 := by
          exact_mod_cast (by omega : c + d < 127)
        linarith
      have hv12 : (v1 : ℚ) ≤ (v2 : ℚ) := by exact_mod_cast h12
      exact mul_le_mul_of_nonneg_right
        ((div_le_div_iff_of_pos_right hden).mpr (by linarith)) (by norm_num)
  · intro h1 h21
    have h2 : v2 < c - d := lt_of_le_of_lt h21 h1
    have hz : c - d ≠ 0 := by omega
    rw [calc_delete c d v1 hd h1 hz, calc_delete c d v2 hd h2 hz]
    refine ⟨rfl, rfl, min_le_min le_rfl (jsRound_mono ?_)⟩
    have hden : (0 : ℚ) < (c : ℚ) - (d : ℚ) := by
      exact_mod_cast (by omega : (0 : ℤ) < c - d)
    have hv21 : (v2 : ℚ) ≤ (v1 : ℚ) := by exact_mod_cast h21
    exact mul_le_mul_of_nonneg_right
      ((div_le_div_iff_of_pos_right hden).mpr (by linarith)) (by norm_num)

/-- C7 witness: monotonicity at concrete values on both sides of the band
for the default calibration. -/
theorem C7_intensity_monotone_witness :
    ((calculateControlState 63 1 70).isAccepting = true ∧
     (calculateControlState 63 1 95).isAccepting = true ∧
     (calculateControlState 63 1 70).intensity ≤
       (calculateControlState 63 1 95).intensity) ∧
    ((calculateControlState 63 1 50).isDeleting = true ∧
     (calculateControlState 63 1 20).isDeleting = true ∧
     (calculateControlState 63 1 50).intensity ≤
       (calculateControlState 63 1 20).intensity) :=
  ⟨(C7_intensity_monotone 63 1 70 95 (by norm_num) (by norm_num)
      (by norm_num)).1 (by norm_num) (by norm_num),
   (C7_intensity_monotone 63 1 50 20 (by norm_num) (by norm_num)
      (by norm_num)).2 (by norm_num) (by norm_num)⟩

/-- C8: the repeat interval `max(5, round((500 - intensity*4.8)/3))` is
strictly decreasing in the intensity on `[1, 100]` and never drops below
the 5 ms floor. -/
theorem C8_delay_monotone :
    (∀ i1 i2 : ℤ, 1 ≤ i1 → i1 < i2 → i2 ≤ 100 →
      delayForIntensity i2 < delayForIntensity i1) ∧
    (∀ i : ℤ, 5 ≤ delayForIntensity i) := by
  have key : ∀ i : ℤ, i ≤ 100 →
      (7 : ℤ) ≤ jsRound ((500 - (i : ℚ) * 4.8) / 3) := by
    intro i hi
    refine le_jsRound ?_
    have hiq : (i : ℚ) ≤ 100 := by exact_mod_cast hi
    rw [show (4.8 : ℚ) = 24/5 by norm_num]
    push_cast
    linarith
  constructor
  · intro i1 i2 h1 h12 h2
    have k1 : (7 : ℤ) ≤ jsRound ((500 - (i1 : ℚ) * 4.8) / 3) :=
      key i1 (by omega)
    have k2 : (7 : ℤ) ≤ jsRound ((500 - (i2 : ℚ) * 4.8) / 3) := key i2 h2
    have hq : (i1 : ℚ) + 1 ≤ (i2 : ℚ) := by exact_mod_cast h12
    have hgap : (500 - (i2 : ℚ) * 4.8) / 3 + 1 ≤
        (500 - (i1 : ℚ) * 4.8) / 3 := by
      rw [show (4.8 : ℚ) = 24/5 by norm_num]
      linarith
    unfold delayForIntensity
    rw [max_eq_right (le_trans (by norm_num) k2),
      max_eq_right (le_trans (by norm_num) k1)]
    exact jsRound_lt hgap
  · intro i
    exact le_max_left _ _

/-- C8 witness: delay at intensity 80 is strictly below the delay at
intensity 50, and stays at or above the floor. -/
theorem C8_delay_monotone_witness :
    delayForIntensity 80 < delayForIntensity 50 ∧
    5 ≤ delayForIntensity 80 :=
  ⟨C8_delay_monotone.1 50 80 (by norm_num) (by norm_num) (by norm_num),
   C8_delay_monotone.2 80⟩

end PedalPilot
